import Mathlib

set_option linter.unusedVariables false

/-!
Shallow embedding of the two Flask teaching services of this repository:

* `lessons/optional/deploying-models-flask/hello.py` — a spam-classification
  service (namespace `Spam`): loads a labelled SMS corpus, fits a
  `TfidfVectorizer(stop_words='english', max_features=300)` and a
  `MultinomialNB`, and serves `/`, `/table`, `/is_spam?msg=...` and
  `/greet/<name>`.
* `lessons/required/logistic-regression/practice/app.py` — a bank-marketing
  service (namespace `Bank`): computes one accuracy score at startup from a
  train/test split and `cross_val_predict`, and serves `/`.

Machine numerics that are transcendental in the libraries (idf weights,
log priors and log likelihoods, which are logarithms of rational counts,
and the fitted logistic-regression coefficients) enter the embedding as
explicit rational-valued parameters: no statement below depends on their
values, only on the shape of the computation around them.  Dataset files
(`data/SMSSpamCollection.txt`, `../data/bank.csv`) are not part of the
sources, so loaders are parameterised by the parsed rows and the theorems
quantify over them.
-/

/-- Minimal JSON value type: enough to express `flask.jsonify` of a
dictionary mapping string keys to string or numeric values. -/
inductive Json where
  | str : String → Json
  | num : ℚ → Json
  | obj : List (String × Json) → Json

/-- Response body: an HTML/text page or a JSON document. -/
inductive Body where
  | html : String → Body
  | json : Json → Body

/-- An HTTP response: a status code and a body. -/
structure Response where
  status : Nat
  body : Body

/-- An HTTP request: method, URL path, and decoded query arguments.
`flask.request.args` is a multi-dict; indexing it returns the first value
bound to a key, which is what `List.lookup` yields on an association list. -/
structure Request where
  method : String
  path : String
  args : List (String × String)

/-- True exactly for success status codes (2xx). -/
def is2xx (s : Nat) : Bool := decide (200 ≤ s) && decide (s < 300)

/-- Splits a character list on a separator, dropping empty segments
(accumulator holds the current segment reversed). -/
def splitSegs (sep : Char) : List Char → List Char → List String
  | [], acc => if acc.isEmpty then [] else [String.mk acc.reverse]
  | c :: cs, acc =>
    if c = sep then
      (if acc.isEmpty then [] else [String.mk acc.reverse]) ++ splitSegs sep cs []
    else
      splitSegs sep cs (c :: acc)

/-- The segments of a URL path: Flask's werkzeug router matches rules
segment-by-segment; `/greet/<name>` binds `name` to one slash-free segment. -/
def pathSegments (p : String) : List String := splitSegs '/' p.data []

/-- Word characters of the default sklearn token pattern `\w\w+` (letters,
digits, underscore). -/
def isWordChar (c : Char) : Bool := c.isAlphanum || c = '_'

/-- Groups maximal runs of word characters, keeping only runs of length at
least two (the accumulator holds the current run reversed), mirroring the
sklearn default `token_pattern=r"(?u)\b\w\w+\b"`. -/
def wordRuns : List Char → List Char → List String
  | [], acc => if acc.length ≥ 2 then [String.mk acc.reverse] else []
  | c :: cs, acc =>
    if isWordChar c then
      wordRuns cs (c :: acc)
    else
      (if acc.length ≥ 2 then [String.mk acc.reverse] else []) ++ wordRuns cs []

/-- Tokenization performed by `TfidfVectorizer` with default options:
lowercase, then extract tokens of two or more word characters. -/
def tokenize (s : String) : List String := wordRuns (s.data.map Char.toLower) []

/-- Insertion into a list sorted by the boolean relation `le`. -/
def insertBy (le : α → α → Bool) (a : α) : List α → List α
  | [] => [a]
  | b :: bs => if le a b then a :: b :: bs else b :: insertBy le a bs

/-- Insertion sort by the boolean relation `le`. -/
def sortBy (le : α → α → Bool) : List α → List α
  | [] => []
  | a :: as => insertBy le a (sortBy le as)

/-- Model of a fitted `TfidfVectorizer`: a finite vocabulary (one feature
per term, so the output vectors have width `vocab.length`) and a per-term
weight.  The idf weights are logarithms in the library and enter here as a
rational-valued parameter; the final l2 normalisation rescales each
document's vector by a positive scalar and is absorbed into the abstracted
weights (it maps the zero vector to itself, which is the only value the
statements below depend on). -/
structure Vectorizer where
  vocab : List String
  idf : String → ℚ

/-- Model of `TfidfVectorizer.transform` on a single document: the feature
for term `t` is the term count in the tokenized document times the term's
weight.  Total on every string; unseen tokens simply contribute nothing. -/
def Vectorizer.transformOne (v : Vectorizer) (doc : String) : List ℚ :=
  let toks := tokenize doc
  v.vocab.map (fun t => ((toks.count t : ℚ) * v.idf t))

/-- Model of fitting `TfidfVectorizer(stop_words=..., max_features=...)` on
a corpus: candidate terms are the distinct tokens of the corpus minus the
stop words; the vocabulary keeps at most `max_features` of them, ordered by
descending corpus frequency (tie order is immaterial to every statement
below). -/
def fitTfidf (stopWords : List String) (max_features : Nat)
    (corpus : List String) (idfTable : String → ℚ) : Vectorizer :=
  let allToks := (corpus.map tokenize).flatten
  let candidates := allToks.dedup.filter (fun t => decide (¬ t ∈ stopWords))
  let sorted := sortBy (fun t u => decide (allToks.count u ≤ allToks.count t)) candidates
  { vocab := sorted.take max_features, idf := idfTable }

/-- Model of a fitted `MultinomialNB`: the class list `classes_` (the
distinct labels seen at fit time) plus the fitted log prior and per-feature
log likelihood tables, which are logarithms of smoothed rational count
ratios in the library and enter here as rational-valued parameters. -/
structure NB where
  classes : List String
  class_log_prior : String → ℚ
  feature_log_prob : String → Nat → ℚ

/-- Joint log likelihood of one sample for one class:
`class_log_prior[c] + Σ_i x_i * feature_log_prob[c][i]`. -/
def NB.jll (nb : NB) (x : List ℚ) (c : String) : ℚ :=
  nb.class_log_prior c + (x.enum.map (fun p => p.2 * nb.feature_log_prob c p.1)).sum

/-- First maximizer of `f` over a list (`np.argmax` keeps the earliest
index on ties); `none` only on the empty list. -/
def argmaxBy (f : α → ℚ) : List α → Option α
  | [] => none
  | a :: as => some (as.foldl (fun b x => if f b < f x then x else b) a)

/-- Model of `MultinomialNB.predict` on one sample: the class of maximal
joint log likelihood. -/
def NB.predictOne (nb : NB) (x : List ℚ) : Option String :=
  argmaxBy (nb.jll x) nb.classes

/-- Model of `MultinomialNB.predict` on a sample matrix: row-wise
prediction. -/
def NB.predict (nb : NB) (xs : List (List ℚ)) : List (Option String) :=
  xs.map nb.predictOne

/-- Model of `MultinomialNB().fit(X, y)`: records the distinct labels of
`y` as `classes_` (`np.unique(y)` additionally sorts them; only the set of
classes matters to the statements below) and the fitted log tables, which
depend on `X` and `y` through logarithms and enter as parameters. -/
def nbFit (X : List (List ℚ)) (y : List String)
    (priorTable : String → ℚ) (featTable : String → Nat → ℚ) : NB :=
  { classes := y.dedup
    class_log_prior := priorTable
    feature_log_prob := featTable }

/-- Model of sklearn's built-in English stop-word list, selected in the
source by `stop_words='english'` (the library constant
`ENGLISH_STOP_WORDS`, a fixed frozenset of common English words; listed
here is a faithful transcription of its content). -/
def englishStopWords : List String :=
  ["a", "about", "above", "across", "after", "afterwards", "again",
   "against", "all", "almost", "alone", "along", "already", "also",
   "although", "always", "am", "among", "amongst", "amoungst", "amount",
   "an", "and", "another", "any", "anyhow", "anyone", "anything", "anyway",
   "anywhere", "are", "around", "as", "at", "back", "be", "became",
   "because", "become", "becomes", "becoming", "been", "before",
   "beforehand", "behind", "being", "below", "beside", "besides",
   "between", "beyond", "bill", "both", "bottom", "but", "by", "call",
   "can", "cannot", "cant", "co", "con", "could", "couldnt", "cry", "de",
   "describe", "detail", "do", "done", "down", "due", "during", "each",
   "eg", "eight", "either", "eleven", "else", "elsewhere", "empty",
   "enough", "etc", "even", "ever", "every", "everyone", "everything",
   "everywhere", "except", "few", "fifteen", "fifty", "fill", "find",
   "fire", "first", "five", "for", "former", "formerly", "forty", "found",
   "four", "from", "front", "full", "further", "get", "give", "go", "had",
   "has", "hasnt", "have", "he", "hence", "her", "here", "hereafter",
   "hereby", "herein", "hereupon", "hers", "herself", "him", "himself",
   "his", "how", "however", "hundred", "i", "ie", "if", "in", "inc",
   "indeed", "interest", "into", "is", "it", "its", "itself", "keep",
   "last", "latter", "latterly", "least", "less", "ltd", "made", "many",
   "may", "me", "meanwhile", "might", "mill", "mine", "more", "moreover",
   "most", "mostly", "move", "much", "must", "my", "myself", "name",
   "namely", "neither", "never", "nevertheless", "next", "nine", "no",
   "nobody", "none", "noone", "nor", "not", "nothing", "now", "nowhere",
   "of", "off", "often", "on", "once", "one", "only", "onto", "or",
   "other", "others", "otherwise", "our", "ours", "ourselves", "out",
   "over", "own", "part", "per", "perhaps", "please", "put", "rather",
   "re", "same", "see", "seem", "seemed", "seeming", "seems", "serious",
   "several", "she", "should", "show", "side", "since", "sincere", "six",
   "sixty", "so", "some", "somehow", "someone", "something", "sometime",
   "sometimes", "somewhere", "still", "such", "system", "take", "ten",
   "than", "that", "the", "their", "them", "themselves", "then", "thence",
   "there", "thereafter", "thereby", "therefore", "therein", "thereupon",
   "these", "they", "thick", "thin", "third", "this", "those", "though",
   "three", "through", "throughout", "thru", "thus", "to", "together",
   "too", "top", "toward", "towards", "twelve", "twenty", "two", "un",
   "under", "until", "up", "upon", "us", "very", "via", "was", "we",
   "well", "were", "what", "whatever", "when", "whence", "whenever",
   "where", "whereafter", "whereas", "whereby", "wherein", "whereupon",
   "wherever", "whether", "which", "while", "whither", "who", "whoever",
   "whole", "whom", "whose", "why", "will", "with", "within", "without",
   "would", "yet", "you", "your", "yours", "yourself", "yourselves"]

/-- Model of `pandas.DataFrame.to_html` on the two-column frame
`df.columns = ['target', 'msg']`: a deterministic HTML table rendering of
every row (the exact pandas markup is an external-library detail; what the
statements below use is that it is a fixed pure function of the rows,
evaluated once at import time). -/
def dfToHtml (rows : List (String × String)) : String :=
  "<table><thead><tr><th>target</th><th>msg</th></tr></thead><tbody>"
    ++ String.join (rows.map
        (fun r => "<tr><td>" ++ r.1 ++ "</td><td>" ++ r.2 ++ "</td></tr>"))
    ++ "</tbody></table>"

/-- Modelled from the spec: `templates/table.html` is not under the
sources; per the spec the table endpoint "returns a pre-rendered HTML
representation of the entire loaded dataset", so the template embeds the
pre-rendered table string it is passed into a fixed page. -/
def render_table (t : String) : String :=
  "<html><body>" ++ t ++ "</body></html>"

/-- Modelled from the spec: `templates/index.html` is not under the
sources; per the spec `/greet/<name>` returns "a rendered page with
`<name>` interpolated", so the template interpolates the captured name
into a fixed page. -/
def render_index (name : String) : String :=
  "<html><body><h2>Hello, " ++ name ++ "!</h2></body></html>"

/-- Modelled from the spec: `templates/report.html` is not under the
sources; per the spec the report endpoint returns "a rendered page
embedding one pre-computed numeric accuracy score", so the template
interpolates the score it is passed into a fixed page. -/
def render_report (a : ℚ) : String :=
  "<html><body><h2>Accuracy: " ++ toString a.num ++ "/" ++ toString a.den
    ++ "</h2></body></html>"

/-- Default body the serving framework produces for a 400 Bad Request
(werkzeug's `BadRequestKeyError` page; exact markup is framework detail). -/
def badRequestBody : Body := Body.html "<html><body>400 Bad Request</body></html>"

/-- Default body the framework produces for 404 Not Found. -/
def notFoundBody : Body := Body.html "<html><body>404 Not Found</body></html>"

/-- Default body the framework produces for 405 Method Not Allowed. -/
def methodNotAllowedBody : Body := Body.html "<html><body>405 Method Not Allowed</body></html>"

/-- Default body the framework produces for a 500 Internal Server Error. -/
def internalErrorBody : Body := Body.html "<html><body>500 Internal Server Error</body></html>"

namespace Spam

/-- Module-level state of `hello.py` after the import-time loader ran:
the loaded dataframe rows (`df`, with columns target and msg), the HTML
rendering `df_html = df.to_html()` cached at startup, the fitted
vectorizer `cvec` and the fitted classifier `clf`. -/
structure App where
  df : List (String × String)
  df_html : String
  cvec : Vectorizer
  clf : NB

/-- Import-time loader of `hello.py`: reads the tab-separated corpus
(rows enter as a parameter since the data file is outside the sources),
takes `y = df['target']`, `X = df['msg']`, caches `df_html = df.to_html()`,
fits `cvec = TfidfVectorizer(stop_words='english', max_features=300)` on
`X`, transforms the corpus, and fits `clf = MultinomialNB()` on the
transformed corpus and `y`. -/
def load (rows : List (String × String)) (idfTable : String → ℚ)
    (priorTable : String → ℚ) (featTable : String → Nat → ℚ) : App :=
  let y := rows.map Prod.fst
  let X := rows.map Prod.snd
  let cvec := fitTfidf englishStopWords 300 X idfTable
  let Xt := X.map cvec.transformOne
  let clf := nbFit Xt y priorTable featTable
  { df := rows, df_html := dfToHtml rows, cvec := cvec, clf := clf }

/-- Handler of `GET /`: returns the literal triple-quoted HTML string. -/
def hello : Response :=
  ⟨200, Body.html "\n    <body>\n    <h2> Hello World! </h2>\n    </body>\n    "⟩

/-- Handler of `GET /table`: renders `table.html` with the startup-cached
`df_html` string. -/
def table (app : App) : Response :=
  ⟨200, Body.html (render_table app.df_html)⟩

/-- Handler of `GET /is_spam`: `msg = pd.Series(request.args['msg'])`
(a single-element series; indexing a missing key raises
`BadRequestKeyError`, which the framework turns into a 400 response),
`X_new = cvec.transform(msg)`, `score = clf.predict(X_new)`, and the JSON
object `{'prediction': score[0]}` is returned.  Indexing an empty
prediction vector would raise and yield the framework's 500 page. -/
def is_spam (app : App) (args : List (String × String)) : Response :=
  match args.lookup "msg" with
  | none => ⟨400, badRequestBody⟩
  | some m =>
    let msg := [m]
    let X_new := msg.map app.cvec.transformOne
    let score := app.clf.predict X_new
    match score.head? with
    | some (some l) => ⟨200, Body.json (Json.obj [("prediction", Json.str l)])⟩
    | _ => ⟨500, internalErrorBody⟩

/-- Handler of `GET /greet/<name>`: renders `index.html` with the captured
segment. -/
def greet (name : String) : Response :=
  ⟨200, Body.html (render_index name)⟩

/-- The router of `hello.py`: the statically declared rules `/`, `/table`,
`/is_spam` and `/greet/<name>` (one slash-free segment), all GET-only;
unmatched paths get the framework's 404, wrong methods its 405. -/
def route (app : App) (req : Request) : Response :=
  if req.method = "GET" then
    match pathSegments req.path with
    | [] => hello
    | ["table"] => table app
    | ["is_spam"] => is_spam app req.args
    | ["greet", name] => greet name
    | _ => ⟨404, notFoundBody⟩
  else ⟨405, methodNotAllowedBody⟩

/-- One served request together with the module state it leaves behind: the
handlers read the module-level globals and never rebind them, so the state
after a request is the state before it. -/
def step (app : App) (req : Request) : Response × App :=
  (route app req, app)

/-- The serve loop on a trace of requests, threading the module state. -/
def serveFrom (app : App) : List Request → List Response
  | [] => []
  | r :: rs => (step app r).1 :: serveFrom (step app r).2 rs

/-- Module state after serving a trace of requests. -/
def serveState (app : App) : List Request → App
  | [] => app
  | r :: rs => serveState (step app r).2 rs

/-- The label `score[0]` that `/is_spam` serialises for message `m`:
first row of `clf.predict(cvec.transform(pd.Series(m)))`. -/
def predLabel (app : App) (m : String) : Option String :=
  ((app.clf.predict ([m].map app.cvec.transformOne)).head?).join

end Spam

/-- The successful JSON response of `/is_spam`:
`jsonify({'prediction': l})`. -/
def okJsonPrediction (l : String) : Response :=
  ⟨200, Body.json (Json.obj [("prediction", Json.str l)])⟩

/-- Model of `sklearn.metrics.accuracy_score` with default
`normalize=True`: the fraction of positions where the prediction equals
the truth (rational division; the `0/0` convention for empty input is
irrelevant because the library rejects empty input). -/
def accuracy_score (y_true y_pred : List String) : ℚ :=
  (((y_true.zip y_pred).countP (fun p => p.1 == p.2) : ℚ)) / ((y_true.length : ℚ))

namespace Bank

/-- Module-level state of `app.py` after the import-time computation: the
single accuracy score. -/
structure App where
  score : ℚ

/-- Import-time computation of `app.py`: `train_test_split(X, y)` (an
unseeded random split) selects a held-out part `y_test`;
`preds = cross_val_predict(clf, X_test, y_test, cv=5)` produces one
cross-validated prediction per held-out row; both come from external
library routines and enter as parameters.  The score is
`accuracy_score(y_test, preds)`, computed once, before serving begins. -/
def startup (y_test : List String) (preds : List String) : App :=
  { score := accuracy_score y_test preds }

/-- Handler of `GET /`: renders `report.html` with `a = score`. -/
def hello (app : App) : Response :=
  ⟨200, Body.html (render_report app.score)⟩

/-- The router of `app.py`: the single rule `/`, GET-only. -/
def route (app : App) (req : Request) : Response :=
  if req.method = "GET" then
    match pathSegments req.path with
    | [] => hello app
    | _ => ⟨404, notFoundBody⟩
  else ⟨405, methodNotAllowedBody⟩

/-- One served request together with the module state it leaves behind:
the handler reads the module-level `score` and never rebinds it. -/
def step (app : App) (req : Request) : Response × App :=
  (route app req, app)

/-- The serve loop on a trace of requests, threading the module state. -/
def serveFrom (app : App) : List Request → List Response
  | [] => []
  | r :: rs => (step app r).1 :: serveFrom (step app r).2 rs

/-- Module state after serving a trace of requests. -/
def serveState (app : App) : List Request → App
  | [] => app
  | r :: rs => serveState (step app r).2 rs

end Bank

/-- Boolean test that `pat` occurs at the start of a character list. -/
def startsWithChars [BEq α] : List α → List α → Bool
  | [], _ => true
  | _ :: _, [] => false
  | a :: as, b :: bs => a == b && startsWithChars as bs

/-- Boolean test that `pat` occurs somewhere inside a character list. -/
def subOccurs [BEq α] (pat : List α) : List α → Bool
  | [] => startsWithChars pat []
  | a :: as => startsWithChars pat (a :: as) || subOccurs pat as

/-- Boolean substring test on strings (character-level). -/
def containsSub (s pat : String) : Bool := subOccurs pat.data s.data

/-! Helper lemmas. -/

theorem mem_insertBy {le : α → α → Bool} {a x : α} :
    ∀ {l : List α}, x ∈ insertBy le a l ↔ x = a ∨ x ∈ l := by
  intro l
  induction l with
  | nil => simp [insertBy]
  | cons b bs ih =>
    by_cases h : le a b
    · simp [insertBy, h]
    · simp only [insertBy, h, if_neg, Bool.false_eq_true, if_false,
        List.mem_cons, ih]
      tauto

theorem mem_sortBy {le : α → α → Bool} {x : α} :
    ∀ {l : List α}, x ∈ sortBy le l ↔ x ∈ l := by
  intro l
  induction l with
  | nil => simp [sortBy]
  | cons a as ih => simp [sortBy, mem_insertBy, ih]

theorem foldl_choice_mem (f : α → ℚ) :
    ∀ (as : List α) (a : α),
      as.foldl (fun b x => if f b < f x then x else b) a ∈ a :: as := by
  intro as
  induction as with
  | nil => intro a; simp
  | cons x xs ih =>
    intro a
    simp only [List.foldl_cons]
    rcases List.mem_cons.mp (ih (if f a < f x then x else a)) with h1 | h1
    · rw [h1]
      by_cases hc : f a < f x
      · simp [hc]
      · simp [hc]
    · simp [h1]

theorem argmaxBy_mem {f : α → ℚ} {l : List α} {x : α}
    (h : argmaxBy f l = some x) : x ∈ l := by
  cases l with
  | nil => simp [argmaxBy] at h
  | cons a as =>
    simp only [argmaxBy, Option.some.injEq] at h
    rw [← h]
    exact foldl_choice_mem f as a

theorem argmaxBy_exists {f : α → ℚ} {l : List α} (h : l ≠ []) :
    ∃ x, argmaxBy f l = some x ∧ x ∈ l := by
  cases l with
  | nil => exact absurd rfl h
  | cons a as =>
    refine ⟨as.foldl (fun b x => if f b < f x then x else b) a, rfl, ?_⟩
    exact foldl_choice_mem f as a

theorem NB.predictOne_exists (nb : NB) (x : List ℚ) (h : nb.classes ≠ []) :
    ∃ l, nb.predictOne x = some l ∧ l ∈ nb.classes :=
  argmaxBy_exists h

theorem Spam.step_state (app : Spam.App) (req : Request) :
    (Spam.step app req).2 = app := rfl

theorem Spam.serveFrom_eq_map (app : Spam.App) (reqs : List Request) :
    Spam.serveFrom app reqs = reqs.map (Spam.route app) := by
  induction reqs with
  | nil => rfl
  | cons r rs ih => simp [Spam.serveFrom, Spam.step, ih]

theorem Spam.serveState_eq (app : Spam.App) (reqs : List Request) :
    Spam.serveState app reqs = app := by
  induction reqs with
  | nil => rfl
  | cons r rs ih => simpa [Spam.serveState, Spam.step] using ih

theorem Bank.bankStep_state (app : Bank.App) (req : Request) :
    (Bank.step app req).2 = app := rfl

theorem Bank.bankServeFrom_eq_map (app : Bank.App) (reqs : List Request) :
    Bank.serveFrom app reqs = reqs.map (Bank.route app) := by
  induction reqs with
  | nil => rfl
  | cons r rs ih => simp [Bank.serveFrom, Bank.step, ih]

theorem Bank.bankServeState_eq (app : Bank.App) (reqs : List Request) :
    Bank.serveState app reqs = app := by
  induction reqs with
  | nil => rfl
  | cons r rs ih => simpa [Bank.serveState, Bank.step] using ih

theorem Spam.is_spam_ok (app : Spam.App) (args : List (String × String))
    (m : String) (ha : args.lookup "msg" = some m)
    (hc : app.clf.classes ≠ []) :
    ∃ l, Spam.predLabel app m = some l ∧ l ∈ app.clf.classes ∧
      Spam.is_spam app args = okJsonPrediction l := by
  obtain ⟨l, hl, hmem⟩ := app.clf.predictOne_exists (app.cvec.transformOne m) hc
  refine ⟨l, ?_, hmem, ?_⟩
  · simp [Spam.predLabel, NB.predict, hl]
  · simp [Spam.is_spam, ha, NB.predict, hl, okJsonPrediction]

/-! Concrete instances used by the witnesses. -/

/-- A tiny concrete labelled corpus standing in for the parsed rows of
`data/SMSSpamCollection.txt`. -/
def exRows : List (String × String) :=
  [("ham", "hello friend"), ("spam", "win free cash now")]

/-- Concrete stand-in for the fitted idf table. -/
def exIdf : String → ℚ := fun _ => 1

/-- Concrete stand-in for the fitted class log prior table. -/
def exPrior : String → ℚ := fun _ => 0

/-- Concrete stand-in for the fitted feature log likelihood table. -/
def exFeat : String → Nat → ℚ := fun _ _ => 0

/-- The spam service loaded on the concrete corpus. -/
def exApp : Spam.App := Spam.load exRows exIdf exPrior exFeat

/-- A concrete `GET /table` request. -/
def exTableReq : Request := ⟨"GET", "/table", []⟩

/-! Claims. -/

/-- C1: for every `GET /is_spam` request carrying a query parameter `msg`,
the handler wraps the raw text into a single-element sequence, applies the
one fitted transformer and the one fitted classifier to produce exactly one
predicted label, and returns a JSON object with the single key
`"prediction"` whose value is that label. -/
theorem spam_is_spam_contract
    (rows : List (String × String)) (iT : String → ℚ) (pT : String → ℚ)
    (fT : String → Nat → ℚ) (app : Spam.App) (req : Request) (m : String)
    (happ : app = Spam.load rows iT pT fT) (hrows : rows ≠ [])
    (hmeth : req.method = "GET")
    (hpath : pathSegments req.path = ["is_spam"])
    (harg : req.args.lookup "msg" = some m) :
    (app.clf.predict ([m].map app.cvec.transformOne)).length = 1
    ∧ (Spam.predLabel app m).isSome = true
    ∧ Spam.route app req = okJsonPrediction ((Spam.predLabel app m).getD "") := by
  have hc : app.clf.classes ≠ [] := by
    subst happ
    simpa [Spam.load, nbFit, List.dedup_eq_nil, List.map_eq_nil_iff] using hrows
  obtain ⟨l, hl, hmem, hresp⟩ := Spam.is_spam_ok app req.args m harg hc
  refine ⟨by simp [NB.predict], by simp [hl], ?_⟩
  have hroute : Spam.route app req = Spam.is_spam app req.args := by
    simp [Spam.route, hmeth, hpath]
  rw [hroute, hresp, hl]
  rfl

/-- Witness for C1 at a concrete request. -/
theorem spam_is_spam_contract_witness :
    (exApp.clf.predict (["win cash"].map exApp.cvec.transformOne)).length = 1
    ∧ (Spam.predLabel exApp "win cash").isSome = true
    ∧ Spam.route exApp ⟨"GET", "/is_spam", [("msg", "win cash")]⟩
        = okJsonPrediction ((Spam.predLabel exApp "win cash").getD "") :=
  spam_is_spam_contract exRows exIdf exPrior exFeat exApp
    ⟨"GET", "/is_spam", [("msg", "win cash")]⟩ "win cash" rfl (by decide)
    rfl (by decide) (by decide)

/-- C2: the HTML representation of the dataset is computed once at startup
(`df_html = df.to_html()`), and any two `GET /table` requests in one
process lifetime receive the identical response, namely the render of that
cached string. -/
theorem spam_table_cached
    (rows : List (String × String)) (iT : String → ℚ) (pT : String → ℚ)
    (fT : String → Nat → ℚ) (app : Spam.App) (reqs : List Request)
    (i j : Nat) (ri rj : Request)
    (happ : app = Spam.load rows iT pT fT)
    (hi : reqs[i]? = some ri) (hj : reqs[j]? = some rj)
    (hmi : ri.method = "GET") (hpi : pathSegments ri.path = ["table"])
    (hmj : rj.method = "GET") (hpj : pathSegments rj.path = ["table"]) :
    (Spam.serveFrom app reqs)[i]?
        = some ⟨200, Body.html (render_table (dfToHtml rows))⟩
    ∧ (Spam.serveFrom app reqs)[i]? = (Spam.serveFrom app reqs)[j]?
    ∧ app.df_html = dfToHtml rows := by
  have hdf : app.df_html = dfToHtml rows := by rw [happ]; rfl
  have hri : Spam.route app ri = ⟨200, Body.html (render_table (dfToHtml rows))⟩ := by
    simp [Spam.route, hmi, hpi, Spam.table, hdf]
  have hrj : Spam.route app rj = ⟨200, Body.html (render_table (dfToHtml rows))⟩ := by
    simp [Spam.route, hmj, hpj, Spam.table, hdf]
  rw [Spam.serveFrom_eq_map]
  refine ⟨?_, ?_, hdf⟩
  · simp [List.getElem?_map, hi, hri]
  · simp [List.getElem?_map, hi, hj, hri, hrj]

/-- Witness for C2 on a two-request trace. -/
theorem spam_table_cached_witness :
    (Spam.serveFrom exApp [exTableReq, exTableReq])[0]?
        = some ⟨200, Body.html (render_table (dfToHtml exRows))⟩
    ∧ (Spam.serveFrom exApp [exTableReq, exTableReq])[0]?
        = (Spam.serveFrom exApp [exTableReq, exTableReq])[1]?
    ∧ exApp.df_html = dfToHtml exRows :=
  spam_table_cached exRows exIdf exPrior exFeat exApp [exTableReq, exTableReq]
    0 1 exTableReq exTableReq rfl rfl rfl rfl (by decide) rfl (by decide)

/-- C3: a `GET /is_spam` request with no `msg` query parameter gets the
framework's 400-class error response (a non-2xx status), the module state
is unchanged, and the process keeps serving the rest of the trace. -/
theorem spam_missing_msg_gives_400
    (app : Spam.App) (req : Request) (rest : List Request)
    (hmeth : req.method = "GET")
    (hpath : pathSegments req.path = ["is_spam"])
    (harg : req.args.lookup "msg" = none) :
    Spam.step app req = (⟨400, badRequestBody⟩, app)
    ∧ is2xx (Spam.route app req).status = false
    ∧ Spam.serveFrom app (req :: rest)
        = ⟨400, badRequestBody⟩ :: Spam.serveFrom app rest := by
  have hr : Spam.route app req = ⟨400, badRequestBody⟩ := by
    simp [Spam.route, hmeth, hpath, Spam.is_spam, harg]
  refine ⟨by simp [Spam.step, hr], by rw [hr]; decide, ?_⟩
  simp [Spam.serveFrom, Spam.step, hr]

/-- Witness for C3 at a concrete parameterless request. -/
theorem spam_missing_msg_gives_400_witness :
    Spam.step exApp ⟨"GET", "/is_spam", []⟩ = (⟨400, badRequestBody⟩, exApp)
    ∧ is2xx (Spam.route exApp ⟨"GET", "/is_spam", []⟩).status = false
    ∧ Spam.serveFrom exApp (⟨"GET", "/is_spam", []⟩ :: [exTableReq])
        = ⟨400, badRequestBody⟩ :: Spam.serveFrom exApp [exTableReq] :=
  spam_missing_msg_gives_400 exApp ⟨"GET", "/is_spam", []⟩ [exTableReq]
    rfl (by decide) rfl

/-- C4: for a fixed fitted transformer and classifier, any two `/is_spam`
requests in one trace carrying the identical message text receive the
identical response: inference is a deterministic function of the text and
the fitted state. -/
theorem spam_prediction_deterministic
    (app : Spam.App) (reqs : List Request) (i j : Nat) (ri rj : Request)
    (m : String)
    (hi : reqs[i]? = some ri) (hj : reqs[j]? = some rj)
    (hmi : ri.method = "GET") (hmj : rj.method = "GET")
    (hpi : pathSegments ri.path = ["is_spam"])
    (hpj : pathSegments rj.path = ["is_spam"])
    (hai : ri.args.lookup "msg" = some m)
    (haj : rj.args.lookup "msg" = some m) :
    (Spam.serveFrom app reqs)[i]? = (Spam.serveFrom app reqs)[j]?
    ∧ (Spam.serveFrom app reqs)[i]? = some (Spam.is_spam app ri.args) := by
  have hri : Spam.route app ri = Spam.is_spam app ri.args := by
    simp [Spam.route, hmi, hpi]
  have hrj : Spam.route app rj = Spam.is_spam app rj.args := by
    simp [Spam.route, hmj, hpj]
  have heq : Spam.is_spam app ri.args = Spam.is_spam app rj.args := by
    simp [Spam.is_spam, hai, haj]
  rw [Spam.serveFrom_eq_map]
  constructor
  · simp [List.getElem?_map, hi, hj, hri, hrj, heq]
  · simp [List.getElem?_map, hi, hri]

/-- Witness for C4 on two requests that differ outside the message text. -/
theorem spam_prediction_deterministic_witness :
    (Spam.serveFrom exApp
        [⟨"GET", "/is_spam", [("msg", "free cash")]⟩,
         ⟨"GET", "/is_spam", [("msg", "free cash"), ("other", "x")]⟩])[0]?
      = (Spam.serveFrom exApp
        [⟨"GET", "/is_spam", [("msg", "free cash")]⟩,
         ⟨"GET", "/is_spam", [("msg", "free cash"), ("other", "x")]⟩])[1]?
    ∧ (Spam.serveFrom exApp
        [⟨"GET", "/is_spam", [("msg", "free cash")]⟩,
         ⟨"GET", "/is_spam", [("msg", "free cash"), ("other", "x")]⟩])[0]?
      = some (Spam.is_spam exApp [("msg", "free cash")]) :=
  spam_prediction_deterministic exApp
    [⟨"GET", "/is_spam", [("msg", "free cash")]⟩,
     ⟨"GET", "/is_spam", [("msg", "free cash"), ("other", "x")]⟩]
    0 1 ⟨"GET", "/is_spam", [("msg", "free cash")]⟩
    ⟨"GET", "/is_spam", [("msg", "free cash"), ("other", "x")]⟩ "free cash"
    rfl rfl rfl rfl (by decide) (by decide) (by decide) (by decide)

/-- Concrete held-out labels standing in for the bank split. -/
def exYTest : List String := ["no", "yes", "no"]

/-- Concrete cross-validated predictions standing in for the bank split. -/
def exPreds : List String := ["no", "no", "no"]

/-- The bank service started on the concrete split. -/
def exBankApp : Bank.App := Bank.startup exYTest exPreds

/-- A concrete `GET /` request. -/
def exBankReq : Request := ⟨"GET", "/", []⟩

/-- C5: the bank accuracy score is computed exactly once at startup from
the held-out labels and the cross-validated predictions; no handler
mutates it, and every `GET /` response in a trace embeds that same
startup value. -/
theorem bank_score_fixed_per_process
    (y_test preds : List String) (app : Bank.App) (reqs : List Request)
    (i : Nat) (ri : Request)
    (happ : app = Bank.startup y_test preds)
    (hi : reqs[i]? = some ri) (hm : ri.method = "GET")
    (hp : pathSegments ri.path = []) :
    (Bank.serveFrom app reqs)[i]?
        = some ⟨200, Body.html (render_report (accuracy_score y_test preds))⟩
    ∧ Bank.serveState app reqs = app
    ∧ app.score = accuracy_score y_test preds := by
  have hs : app.score = accuracy_score y_test preds := by rw [happ]; rfl
  have hr : Bank.route app ri
      = ⟨200, Body.html (render_report (accuracy_score y_test preds))⟩ := by
    simp [Bank.route, hm, hp, Bank.hello, hs]
  refine ⟨?_, Bank.bankServeState_eq app reqs, hs⟩
  rw [Bank.bankServeFrom_eq_map]
  simp [List.getElem?_map, hi, hr]

/-- Witness for C5 on a one-request trace. -/
theorem bank_score_fixed_per_process_witness :
    (Bank.serveFrom exBankApp [exBankReq])[0]?
        = some ⟨200, Body.html (render_report (accuracy_score exYTest exPreds))⟩
    ∧ Bank.serveState exBankApp [exBankReq] = exBankApp
    ∧ exBankApp.score = accuracy_score exYTest exPreds :=
  bank_score_fixed_per_process exYTest exPreds exBankApp [exBankReq] 0
    exBankReq rfl rfl rfl (by decide)

/-- C6: the score embedded in the bank report page is a single numeric
value in the closed interval from 0 to 1 (the fraction of held-out
predictions matching the held-out labels). -/
theorem bank_score_in_unit_interval
    (y_test preds : List String) (app : Bank.App) (req : Request)
    (happ : app = Bank.startup y_test preds)
    (hm : req.method = "GET") (hp : pathSegments req.path = []) :
    Bank.route app req
        = ⟨200, Body.html (render_report (accuracy_score y_test preds))⟩
    ∧ 0 ≤ accuracy_score y_test preds
    ∧ accuracy_score y_test preds ≤ 1 := by
  have hs : app.score = accuracy_score y_test preds := by rw [happ]; rfl
  refine ⟨by simp [Bank.route, hm, hp, Bank.hello, hs], ?_, ?_⟩
  · unfold accuracy_score
    positivity
  · unfold accuracy_score
    rcases Nat.eq_zero_or_pos y_test.length with h0 | h0
    · rw [h0]
      norm_num
    · have h1 : (y_test.zip preds).countP (fun p => p.1 == p.2)
          ≤ (y_test.zip preds).length := List.countP_le_length _
      have h2 : (y_test.zip preds).length ≤ y_test.length := by
        rw [List.length_zip]
        exact min_le_left _ _
      have hle : (((y_test.zip preds).countP (fun p => p.1 == p.2) : ℚ))
          ≤ ((y_test.length : ℚ)) := by
        exact_mod_cast le_trans h1 h2
      exact div_le_one_of_le₀ hle (by positivity)

/-- Witness for C6 at a concrete split. -/
theorem bank_score_in_unit_interval_witness :
    Bank.route exBankApp exBankReq
        = ⟨200, Body.html (render_report (accuracy_score exYTest exPreds))⟩
    ∧ 0 ≤ accuracy_score exYTest exPreds
    ∧ accuracy_score exYTest exPreds ≤ 1 :=
  bank_score_in_unit_interval exYTest exPreds exBankApp exBankReq rfl rfl
    (by decide)

/-- C7: the service fits exactly one transformer at startup —
`TfidfVectorizer(stop_words='english', max_features=300)` on the training
corpus, so its vocabulary has at most 300 terms and contains no stop
word — every `/is_spam` request is answered through that same fitted
transformer, and serving never refits or swaps it. -/
theorem spam_transformer_fixed_and_bounded
    (rows : List (String × String)) (iT pT : String → ℚ)
    (fT : String → Nat → ℚ) (app : Spam.App) (reqs : List Request)
    (req : Request) (m : String)
    (happ : app = Spam.load rows iT pT fT)
    (hmeth : req.method = "GET")
    (hpath : pathSegments req.path = ["is_spam"])
    (harg : req.args.lookup "msg" = some m) :
    app.cvec = fitTfidf englishStopWords 300 (rows.map Prod.snd) iT
    ∧ app.cvec.vocab.length ≤ 300
    ∧ app.cvec.vocab.all (fun w => decide (¬ w ∈ englishStopWords)) = true
    ∧ Spam.serveState app reqs = app
    ∧ (Spam.step app req).2.cvec = app.cvec
    ∧ Spam.route app req = Spam.is_spam app req.args := by
  have hcv : app.cvec = fitTfidf englishStopWords 300 (rows.map Prod.snd) iT := by
    rw [happ]; rfl
  have hlen : app.cvec.vocab.length ≤ 300 := by
    rw [hcv]
    simp only [fitTfidf]
    exact List.length_take_le _ _
  have hstop : app.cvec.vocab.all (fun w => decide (¬ w ∈ englishStopWords)) = true := by
    rw [hcv]
    rw [List.all_eq_true]
    intro w hw
    simp only [fitTfidf] at hw
    have hw1 := List.mem_of_mem_take hw
    have hw2 := mem_sortBy.mp hw1
    exact (List.mem_filter.mp hw2).2
  exact ⟨hcv, hlen, hstop, Spam.serveState_eq app reqs, rfl,
    by simp [Spam.route, hmeth, hpath]⟩

/-- Witness for C7 on the concrete corpus. -/
theorem spam_transformer_fixed_and_bounded_witness :
    exApp.cvec = fitTfidf englishStopWords 300 (exRows.map Prod.snd) exIdf
    ∧ exApp.cvec.vocab.length ≤ 300
    ∧ exApp.cvec.vocab.all (fun w => decide (¬ w ∈ englishStopWords)) = true
    ∧ Spam.serveState exApp [exTableReq] = exApp
    ∧ (Spam.step exApp ⟨"GET", "/is_spam", [("msg", "hi")]⟩).2.cvec = exApp.cvec
    ∧ Spam.route exApp ⟨"GET", "/is_spam", [("msg", "hi")]⟩
        = Spam.is_spam exApp [("msg", "hi")] :=
  spam_transformer_fixed_and_bounded exRows exIdf exPrior exFeat exApp
    [exTableReq] ⟨"GET", "/is_spam", [("msg", "hi")]⟩ "hi" rfl rfl
    (by decide) rfl

/-- C8: `/greet/<name>` captures exactly one path segment verbatim, hands
the raw value to the template render with no model interaction, and in
particular the page rendered for `/greet/Jacob` contains the literal
substring `"Jacob"`. -/
theorem spam_greet_verbatim
    (app : Spam.App) (req : Request) (name : String)
    (hmeth : req.method = "GET")
    (hpath : pathSegments req.path = ["greet", name]) :
    Spam.route app req = ⟨200, Body.html (render_index name)⟩
    ∧ (Spam.step app req).2 = app
    ∧ containsSub (render_index "Jacob") "Jacob" = true := by
  refine ⟨by simp [Spam.route, hmeth, hpath, Spam.greet], rfl, by decide⟩

/-- Witness for C8 at the concrete path `/greet/Jacob`. -/
theorem spam_greet_verbatim_witness :
    Spam.route exApp ⟨"GET", "/greet/Jacob", []⟩
        = ⟨200, Body.html (render_index "Jacob")⟩
    ∧ (Spam.step exApp ⟨"GET", "/greet/Jacob", []⟩).2 = exApp
    ∧ containsSub (render_index "Jacob") "Jacob" = true :=
  spam_greet_verbatim exApp ⟨"GET", "/greet/Jacob", []⟩ "Jacob" rfl (by decide)

/-- C9: the label returned under the `"prediction"` key is always one of
the distinct values of the training target column — the classifier can
only emit a class it was fitted on. -/
theorem spam_prediction_label_from_training
    (rows : List (String × String)) (iT pT : String → ℚ)
    (fT : String → Nat → ℚ) (app : Spam.App) (req : Request) (m : String)
    (happ : app = Spam.load rows iT pT fT) (hrows : rows ≠ [])
    (hmeth : req.method = "GET")
    (hpath : pathSegments req.path = ["is_spam"])
    (harg : req.args.lookup "msg" = some m) :
    Spam.route app req = okJsonPrediction ((Spam.predLabel app m).getD "")
    ∧ ((Spam.predLabel app m).getD "") ∈ (rows.map Prod.fst).dedup := by
  have hc : app.clf.classes ≠ [] := by
    subst happ
    simpa [Spam.load, nbFit, List.dedup_eq_nil, List.map_eq_nil_iff] using hrows
  obtain ⟨l, hl, hmem, hresp⟩ := Spam.is_spam_ok app req.args m harg hc
  have hclasses : app.clf.classes = (rows.map Prod.fst).dedup := by
    rw [happ]; rfl
  refine ⟨?_, ?_⟩
  · have hroute : Spam.route app req = Spam.is_spam app req.args := by
      simp [Spam.route, hmeth, hpath]
    rw [hroute, hresp, hl]
    rfl
  · rw [hl]
    simpa [← hclasses] using hmem

/-- Witness for C9 at a concrete message. -/
theorem spam_prediction_label_from_training_witness :
    Spam.route exApp ⟨"GET", "/is_spam", [("msg", "cash now")]⟩
        = okJsonPrediction ((Spam.predLabel exApp "cash now").getD "")
    ∧ ((Spam.predLabel exApp "cash now").getD "")
        ∈ (exRows.map Prod.fst).dedup :=
  spam_prediction_label_from_training exRows exIdf exPrior exFeat exApp
    ⟨"GET", "/is_spam", [("msg", "cash now")]⟩ "cash now" rfl (by decide)
    rfl (by decide) (by decide)

/-- C10: whenever the `msg` parameter is present the handler succeeds for
every string value — including the empty string and strings made only of
stop-words or out-of-vocabulary tokens, which transform to the all-zero
feature vector — returning a 200 JSON prediction; there is no
minimum-length or content precondition on the message text. -/
theorem spam_msg_no_precondition
    (rows : List (String × String)) (iT pT : String → ℚ)
    (fT : String → Nat → ℚ) (app : Spam.App) (req : Request) (m : String)
    (happ : app = Spam.load rows iT pT fT) (hrows : rows ≠ [])
    (hmeth : req.method = "GET")
    (hpath : pathSegments req.path = ["is_spam"])
    (harg : req.args.lookup "msg" = some m) :
    (Spam.route app req).status = 200
    ∧ Spam.route app req = okJsonPrediction ((Spam.predLabel app m).getD "")
    ∧ ((tokenize m).all (fun t => decide (¬ t ∈ app.cvec.vocab)) = true →
        app.cvec.transformOne m
          = List.replicate app.cvec.vocab.length 0) := by
  have hc : app.clf.classes ≠ [] := by
    subst happ
    simpa [Spam.load, nbFit, List.dedup_eq_nil, List.map_eq_nil_iff] using hrows
  obtain ⟨l, hl, hmem, hresp⟩ := Spam.is_spam_ok app req.args m harg hc
  have hroute : Spam.route app req = Spam.is_spam app req.args := by
    simp [Spam.route, hmeth, hpath]
  refine ⟨?_, ?_, ?_⟩
  · rw [hroute, hresp]
    rfl
  · rw [hroute, hresp, hl]
    rfl
  · intro hall
    rw [List.all_eq_true] at hall
    simp only [Vectorizer.transformOne]
    have hz : ∀ t ∈ app.cvec.vocab,
        (((tokenize m).count t : ℚ)) * app.cvec.idf t = 0 := by
      intro t ht
      have hnot : t ∉ tokenize m := by
        intro hmem2
        exact (of_decide_eq_true (hall t hmem2)) ht
      rw [List.count_eq_zero.mpr hnot]
      simp
    calc app.cvec.vocab.map (fun t => (((tokenize m).count t : ℚ)) * app.cvec.idf t)
        = app.cvec.vocab.map (fun _ => (0 : ℚ)) := List.map_congr_left hz
      _ = List.replicate app.cvec.vocab.length 0 := by
          simp [List.map_const']

/-- Witness for C10 at the empty message, whose feature vector is all
zeros. -/
theorem spam_msg_no_precondition_witness :
    (Spam.route exApp ⟨"GET", "/is_spam", [("msg", "")]⟩).status = 200
    ∧ Spam.route exApp ⟨"GET", "/is_spam", [("msg", "")]⟩
        = okJsonPrediction ((Spam.predLabel exApp "").getD "")
    ∧ exApp.cvec.transformOne "" = List.replicate exApp.cvec.vocab.length 0 :=
  have h := spam_msg_no_precondition exRows exIdf exPrior exFeat exApp
    ⟨"GET", "/is_spam", [("msg", "")]⟩ "" rfl (by decide) rfl (by decide)
    (by decide)
  ⟨h.1, h.2.1, h.2.2 (by decide)⟩
